import Mathlib

/-!
Verification development for the command/keybinding dispatch subsystem of the
beamlynx-ui repository: the command registry (`src/unnamed/part_005`, the
`COMMANDS` table), the keybinding registry (`src/utils/keybindings.ts`), the
global keybinding dispatcher (`src/hooks/useGlobalKeybindings.ts`, newer
revision), and the command palette controller
(`src/components/CommandPalette.tsx`).

The TypeScript code is shallowly embedded: the observable store/session state
read or written by this subsystem becomes a `Ctx` record, calls into the
external collaborators (stores, session methods) become entries of an
append-only `Effect` trace, command handlers become pure functions
`Ctx → Ctx × HandlerResult`, and the palette's component state becomes a
`PaletteState` record transformed by explicit step functions.
-/

/-- Trace entries recording each call into an external collaborator
(GlobalStore / Session methods that are outside this subsystem). The trace is
append-only; "the handler was invoked exactly once" is visible as exactly one
batch of its effects being appended. -/
inductive Effect where
  | toggleTheme
  | toggleVimMode
  | toggleCompactMode
  | addTab
  | closeTab (sessionId : Nat)
  | evaluate
  | setShowAnalysis (b : Bool)
  | setShowChangelog (b : Bool)
  | focusTextInput
  | appendAndUpdateExpression (s : String)
  deriving DecidableEq, Repr

/-- One table hint of the AST produced by the external `vs.build(expression)`
call inside the `select-table` handler (`ast.hints.table`). -/
structure TableHint where
  pine : String
  table : String
  schema : String
  deriving DecidableEq, Repr

/-- The observable application state this subsystem reads or writes: the
fields of the active `Session` (`expression`, `query`, `loading`,
`textInputFocused`, `mode`, `id`) and of the `GlobalStore` (`theme`,
`commandHistory`, `showCommandPalette`) that the embedded code touches,
plus `tableHints` (the environment's answer to the external AST build used by
`select-table`) and the `effects` trace of opaque collaborator calls. -/
structure Ctx where
  sessionId : Nat
  expression : String
  query : String
  loading : Bool
  textInputFocused : Bool
  mode : String
  theme : String
  commandHistory : List String
  showCommandPalette : Bool
  tableHints : List TableHint
  effects : List Effect
  deriving DecidableEq, Repr

/-- Appends one collaborator call to the effect trace. -/
def emit (ctx : Ctx) (eff : Effect) : Ctx :=
  { ctx with effects := ctx.effects ++ [eff] }

/-- `CommandCategory` from `src/unnamed/part_005`:
`'View' | 'Query' | 'Preferences' | 'Experimental' | 'Help'`. -/
inductive CommandCategory where
  | View
  | Query
  | Preferences
  | Experimental
  | Help
  deriving DecidableEq, Repr

/-- `CommandOption` from `src/unnamed/part_005`: one selectable option of a
two-stage command. -/
structure CommandOption where
  id : String
  label : String
  detail : Option String
  schema : Option String
  schemaColor : Option String
  handler : Ctx → Ctx

/-- The value a command handler returns: `unit` embeds a handler returning
`void`; `promise o` embeds a handler returning a `Promise` that resolves to
`o` (`none` when it resolves to `undefined`). -/
inductive HandlerResult where
  | unit
  | promise (options : Option (List CommandOption))

/-- `Command` from `src/unnamed/part_005`. -/
structure Command where
  id : String
  label : String
  category : CommandCategory
  handler : Ctx → Ctx × HandlerResult
  hidden : Bool
  isEnabled : Ctx → Bool

/-- `ALWAYS_ENABLED` from `src/unnamed/part_005`. -/
def ALWAYS_ENABLED : Ctx → Bool := fun _ => true

/-- Modelled from the spec: `getSchemaColor` lives in `store/graph.util`,
which is not among the provided sources; the spec (§3) describes
`schemaColor` only as a domain-specific color tag of the schema name, so it
is modelled as an injective tag of the schema name and theme. No claim
depends on its value. -/
def getSchemaColor (schema : String) (isDark : Bool) : String :=
  (if isDark then "dark:" else "light:") ++ schema

/-- The `toggle-theme` entry of `COMMANDS`. -/
def cmdToggleTheme : Command :=
  { id := "toggle-theme", label := "Toggle Theme", category := .Preferences
    handler := fun ctx => (emit ctx .toggleTheme, .unit)
    hidden := false, isEnabled := ALWAYS_ENABLED }

/-- The `toggle-vim-mode` entry of `COMMANDS`. -/
def cmdToggleVimMode : Command :=
  { id := "toggle-vim-mode", label := "Toggle Vim Mode", category := .Preferences
    handler := fun ctx => (emit ctx .toggleVimMode, .unit)
    hidden := false, isEnabled := ALWAYS_ENABLED }

/-- The `toggle-compact-mode` entry of `COMMANDS`. -/
def cmdToggleCompactMode : Command :=
  { id := "toggle-compact-mode", label := "Toggle Compact Mode", category := .Preferences
    handler := fun ctx => (emit ctx .toggleCompactMode, .unit)
    hidden := false, isEnabled := ALWAYS_ENABLED }

/-- The `new-tab` entry of `COMMANDS`. -/
def cmdNewTab : Command :=
  { id := "new-tab", label := "New Tab", category := .View
    handler := fun ctx => (emit ctx .addTab, .unit)
    hidden := false, isEnabled := ALWAYS_ENABLED }

/-- The `close-tab` entry of `COMMANDS` (`global.closeTab(session.id)`). -/
def cmdCloseTab : Command :=
  { id := "close-tab", label := "Close Tab", category := .View
    handler := fun ctx => (emit ctx (.closeTab ctx.sessionId), .unit)
    hidden := false, isEnabled := ALWAYS_ENABLED }

/-- The `run-query` entry of `COMMANDS`:
`isEnabled: (_global, session) => !!(session.expression || session.query) && !session.loading`. -/
def cmdRunQuery : Command :=
  { id := "run-query", label := "Run Query", category := .Query
    handler := fun ctx => (emit ctx .evaluate, .unit)
    hidden := false
    isEnabled := fun ctx => (!(ctx.expression == "") || !(ctx.query == "")) && !ctx.loading }

/-- The `select-table` entry of `COMMANDS`: a hidden two-stage command whose
handler asynchronously builds one option per table hint of the AST built from
the current expression. -/
def cmdSelectTable : Command :=
  { id := "select-table", label := "Select Table", category := .Query
    handler := fun ctx =>
      let isDark := ctx.theme == "dark"
      (ctx, .promise (some (ctx.tableHints.map (fun hint =>
        { id := hint.pine, label := hint.table, detail := none
          schema := some hint.schema
          schemaColor := some (getSchemaColor hint.schema isDark)
          handler := fun ctx' => emit ctx' (.appendAndUpdateExpression hint.pine) }))))
    hidden := true
    isEnabled := fun ctx => ctx.expression.trim == "" }

/-- The `command-palette` entry of `COMMANDS`
(`global.setShowCommandPalette(true)`). -/
def cmdCommandPalette : Command :=
  { id := "command-palette", label := "Open Command Palette", category := .Preferences
    handler := fun ctx => ({ ctx with showCommandPalette := true }, .unit)
    hidden := true, isEnabled := ALWAYS_ENABLED }

/-- The `focus-input` entry of `COMMANDS` (`session.focusTextInput()`). -/
def cmdFocusInput : Command :=
  { id := "focus-input", label := "Focus on the Input Field", category := .Preferences
    handler := fun ctx => (emit ctx .focusTextInput, .unit)
    hidden := true, isEnabled := ALWAYS_ENABLED }

/-- The `toggle-connection-monitor` entry of `COMMANDS`
(direct assignment `session.mode = session.mode === 'monitor' ? 'graph' : 'monitor'`). -/
def cmdToggleConnectionMonitor : Command :=
  { id := "toggle-connection-monitor", label := "Toggle Connection Monitor"
    category := .Experimental
    handler := fun ctx =>
      ({ ctx with mode := if ctx.mode == "monitor" then "graph" else "monitor" }, .unit)
    hidden := false, isEnabled := ALWAYS_ENABLED }

/-- The `open-analysis` entry of `COMMANDS` (`global.setShowAnalysis(true)`). -/
def cmdOpenAnalysis : Command :=
  { id := "open-analysis", label := "Open Analysis", category := .Experimental
    handler := fun ctx => (emit ctx (.setShowAnalysis true), .unit)
    hidden := false, isEnabled := ALWAYS_ENABLED }

/-- The `show-changelog` entry of `COMMANDS` (`global.setShowChangelog(true)`). -/
def cmdShowChangelog : Command :=
  { id := "show-changelog", label := "Show Changelog", category := .Help
    handler := fun ctx => (emit ctx (.setShowChangelog true), .unit)
    hidden := false, isEnabled := ALWAYS_ENABLED }

/-- `COMMANDS` from `src/unnamed/part_005`, in registration order. -/
def COMMANDS : List Command :=
  [cmdToggleTheme, cmdToggleVimMode, cmdToggleCompactMode,
   cmdNewTab, cmdCloseTab,
   cmdRunQuery,
   cmdSelectTable, cmdCommandPalette, cmdFocusInput,
   cmdToggleConnectionMonitor, cmdOpenAnalysis, cmdShowChangelog]

/-- `getAllCommands` from `src/unnamed/part_005`: returns the registry itself. -/
def getAllCommands : List Command := COMMANDS

/-- `getCommandById` from `src/unnamed/part_005`. The source looks the id up
in `COMMANDS_MAP`, a `Map` built from `COMMANDS` keyed by `id`; since the ids
in `COMMANDS` are pairwise distinct this equals first-match lookup. -/
def getCommandById (commandId : String) : Option Command :=
  COMMANDS.find? (fun c => c.id == commandId)

/-- The fields of a browser `KeyboardEvent` the keybinding registry and
dispatcher read. `targetIsTextInput` embeds the dispatcher's check that
`event.target` is an `INPUT`, a `TEXTAREA`, or a content-editable element. -/
structure KeyEvent where
  key : String
  ctrlKey : Bool
  metaKey : Bool
  shiftKey : Bool
  altKey : Bool
  targetIsTextInput : Bool
  deriving DecidableEq, Repr

/-- The modifier keys accepted by `createKeybindingDisplay`. -/
inductive ModifierKey where
  | ctrl
  | shift
  | alt
  deriving DecidableEq, Repr

/-- Character-wise lowercase, embedding `String.prototype.toLowerCase` for
the ASCII keys and labels this subsystem compares. -/
def strToLower (s : String) : String := ⟨s.data.map Char.toLower⟩

/-- Character-wise uppercase, embedding `String.prototype.toUpperCase`. -/
def strToUpper (s : String) : String := ⟨s.data.map Char.toUpper⟩

/-- `createKeybindingDisplay` from `src/utils/keybindings.ts`. The module-level
`isMac` platform probe becomes an explicit argument. -/
def createKeybindingDisplay (isMac : Bool) (modifiers : List ModifierKey) (key : String) : String :=
  if isMac then
    String.join (modifiers.map (fun m =>
      match m with
      | .ctrl => "⌘"
      | .shift => "⇧"
      | .alt => "⌥")) ++ strToUpper key
  else
    String.intercalate "+"
      ((modifiers.map (fun m =>
        match m with
        | .ctrl => "Ctrl"
        | .shift => "Shift"
        | .alt => "Alt")) ++ [strToUpper key])

/-- `KeybindingConfig` from `src/utils/keybindings.ts`. -/
structure KeybindingConfig where
  name : String
  description : String
  display : String
  «matches» : KeyEvent → Bool
  commandId : Option String

/-- The `matches` predicate of the `toggle-theme` keybinding. -/
def matchesToggleTheme (e : KeyEvent) : Bool :=
  (e.ctrlKey || e.metaKey) && e.shiftKey && (strToLower e.key == "t")

/-- The `matches` predicate of the `command-palette` keybinding. -/
def matchesCommandPalette (e : KeyEvent) : Bool :=
  (e.ctrlKey || e.metaKey) && e.shiftKey && (strToLower e.key == "p")

/-- The `matches` predicate of the `escape` keybinding. -/
def matchesEscape (e : KeyEvent) : Bool :=
  e.key == "Escape"

/-- The `matches` predicate of the `select-all` keybinding. -/
def matchesSelectAll (e : KeyEvent) : Bool :=
  (e.ctrlKey || e.metaKey) && (e.key == "a")

/-- The `matches` predicate of the `reload` keybinding. -/
def matchesReload (e : KeyEvent) : Bool :=
  (e.ctrlKey || e.metaKey) && (e.key == "r")

/-- The `toggle-theme` entry of `KEYBINDINGS`. -/
def kbToggleTheme (isMac : Bool) : KeybindingConfig :=
  { name := "toggle-theme", description := "Toggle Theme"
    display := createKeybindingDisplay isMac [.ctrl, .shift] "T"
    «matches» := matchesToggleTheme, commandId := some "toggle-theme" }

/-- The `command-palette` entry of `KEYBINDINGS`. -/
def kbCommandPalette (isMac : Bool) : KeybindingConfig :=
  { name := "command-palette", description := "Open Command Palette"
    display := createKeybindingDisplay isMac [.ctrl, .shift] "P"
    «matches» := matchesCommandPalette, commandId := some "command-palette" }

/-- The `escape` entry of `KEYBINDINGS`. It carries `commandId: 'focus-input'`,
so the dispatcher routes it through the command branch. -/
def kbEscape : KeybindingConfig :=
  { name := "escape", description := "Return focus to the Pine input field"
    display := "Esc", «matches» := matchesEscape, commandId := some "focus-input" }

/-- The `select-all` entry of `KEYBINDINGS` (an app-level keybinding with no
command id). -/
def kbSelectAll (isMac : Bool) : KeybindingConfig :=
  { name := "select-all", description := "Prevent default page selection"
    display := createKeybindingDisplay isMac [.ctrl] "A"
    «matches» := matchesSelectAll, commandId := none }

/-- The `reload` entry of `KEYBINDINGS` (an app-level keybinding with no
command id). -/
def kbReload (isMac : Bool) : KeybindingConfig :=
  { name := "reload", description := "Ensure browser reload always works"
    display := createKeybindingDisplay isMac [.ctrl] "R"
    «matches» := matchesReload, commandId := none }

/-- `KEYBINDINGS` from `src/utils/keybindings.ts`, in registration order. -/
def KEYBINDINGS (isMac : Bool) : List KeybindingConfig :=
  [kbToggleTheme isMac, kbCommandPalette isMac, kbEscape, kbSelectAll isMac, kbReload isMac]

/-- `getKeybindingDisplayForCommand` from `src/utils/keybindings.ts`. -/
def getKeybindingDisplayForCommand (isMac : Bool) (commandId : String) : Option String :=
  ((KEYBINDINGS isMac).find? (fun config => config.commandId == some commandId)).map
    (fun config => config.display)

/-- Modelled from the spec: `GlobalStore.executeCommand`
(`store/global.store.ts`) is not among the provided sources; per §4.2 it looks
the command up (absent id is a no-op), checks `isEnabled` (disabled is a
no-op), invokes the handler, and records the command id into history when the
command completes without pausing at a non-empty option selection. -/
def globalExecuteCommand (commandId : String) (ctx : Ctx) : Ctx :=
  match getCommandById commandId with
  | none => ctx
  | some cmd =>
    if cmd.isEnabled ctx then
      match cmd.handler ctx with
      | (ctx1, .unit) =>
        { ctx1 with commandHistory := ctx1.commandHistory ++ [commandId] }
      | (ctx1, .promise none) =>
        { ctx1 with commandHistory := ctx1.commandHistory ++ [commandId] }
      | (ctx1, .promise (some opts)) =>
        if opts.length > 0 then ctx1
        else { ctx1 with commandHistory := ctx1.commandHistory ++ [commandId] }
    else ctx

/-- The body of the `KEYBINDINGS.forEach` callback in `handleKeyDown` of
`src/hooks/useGlobalKeybindings.ts` (newer revision), applied to one config.
The pair carries the context and the event's default-prevented flag. -/
def dispatchStep (ctx : Ctx) (prevented : Bool) (e : KeyEvent) (config : KeybindingConfig) :
    Ctx × Bool :=
  if config.«matches» e then
    match config.commandId with
    | some cid =>
      match getCommandById cid with
      | some cmd =>
        if cmd.isEnabled ctx then (globalExecuteCommand cid ctx, true) else (ctx, true)
      | none => (ctx, true)
    | none =>
      if config.name == "select-all" then
        if e.targetIsTextInput then (ctx, prevented)
        else if ctx.textInputFocused then (ctx, prevented)
        else (ctx, true)
      else (ctx, prevented)
  else (ctx, prevented)

/-- `handleKeyDown` of `src/hooks/useGlobalKeybindings.ts` (newer revision):
`KEYBINDINGS.forEach` visits every config in registration order (the callback's
early `return` only skips to the next config). -/
def handleKeyDown (isMac : Bool) (ctx : Ctx) (e : KeyEvent) : Ctx × Bool :=
  (KEYBINDINGS isMac).foldl (fun acc config => dispatchStep acc.1 acc.2 e config) (ctx, false)

/-- Case-insensitive substring test embedding
`s.toLowerCase().includes(pat.toLowerCase())`: both sides are lower-cased
character-wise and the pattern is searched as a contiguous segment. -/
def containsSeg : List Char → List Char → Bool
  | pat, [] => pat.isEmpty
  | pat, c :: cs => pat.isPrefixOf (c :: cs) || containsSeg pat cs

/-- Case-insensitive `includes` on strings (pattern second). -/
def containsLower (s pat : String) : Bool :=
  containsSeg (pat.data.map Char.toLower) (s.data.map Char.toLower)

/-- Optional-chaining form `o?.toLowerCase().includes(pat)`: an absent string
is falsy. -/
def optContainsLower (o : Option String) (pat : String) : Bool :=
  (o.map (fun s => containsLower s pat)).getD false

/-- The component-local state of `CommandPalette`
(`src/components/CommandPalette.tsx`): `searchQuery`, `selectedIndex` (a JS
number, embedded as `Int` since `ArrowDown` on an empty list computes `-1`),
and the two-stage fields `commandOptions` and `parentCommand`. -/
structure PaletteState where
  searchQuery : String
  selectedIndex : Int
  commandOptions : Option (List CommandOption)
  parentCommand : Option Command

/-- JS array indexing `xs[i]` on a possibly negative index: out-of-range
reads give `undefined`. -/
def listGetInt {α : Type} (l : List α) (i : Int) : Option α :=
  if i < 0 then none else l[i.toNat]?

/-- `allCommands` in `CommandPalette`: `getAllCommands().filter(cmd => !cmd.hidden)`. -/
def allVisibleCommands : List Command :=
  getAllCommands.filter (fun cmd => !cmd.hidden)

/-- `filteredCommands` in `CommandPalette`: with a truthy (non-empty) query,
commands whose label contains the query case-insensitively; with an empty
query, all visible commands unfiltered. -/
def filteredCommands (q : String) : List Command :=
  if q == "" then allVisibleCommands
  else allVisibleCommands.filter (fun cmd => containsLower cmd.label q)

/-- `recentCommands` in `CommandPalette`: with an empty query, the command
history mapped to visible commands and filtered by enablement; otherwise
empty. -/
def recentCommands (ctx : Ctx) (q : String) : List Command :=
  if q == "" then
    (ctx.commandHistory.filterMap
      (fun id => allVisibleCommands.find? (fun cmd => cmd.id == id))).filter
      (fun cmd => cmd.isEnabled ctx)
  else []

/-- `categoryOrder` in `CommandPalette`. -/
def categoryOrder : List CommandCategory :=
  [.View, .Query, .Preferences, .Help, .Experimental]

/-- `groupedCommands` in `CommandPalette`: categories in `categoryOrder` whose
filtered command list is non-empty, each with its commands in registration
order. -/
def groupedCommands (q : String) : List (CommandCategory × List Command) :=
  categoryOrder.filterMap (fun category =>
    if ((filteredCommands q).filter (fun cmd => decide (cmd.category = category))).length > 0 then
      some (category, (filteredCommands q).filter (fun cmd => decide (cmd.category = category)))
    else none)

/-- `flatCommands` in `CommandPalette`: the flattened navigable list — the
recent section (when present) followed by the grouped commands. -/
def flatCommands (ctx : Ctx) (q : String) : List Command :=
  if (recentCommands ctx q).length > 0 then
    recentCommands ctx q ++ (groupedCommands q).flatMap (fun group => group.2)
  else (groupedCommands q).flatMap (fun group => group.2)

/-- `filteredOptions` in `CommandPalette`: in options mode, options whose
label, detail, or schema contains the query case-insensitively; otherwise
empty. -/
def filteredOptions (st : PaletteState) : List CommandOption :=
  match st.commandOptions with
  | some opts =>
    opts.filter (fun opt =>
      containsLower opt.label st.searchQuery
        || optContainsLower opt.detail st.searchQuery
        || optContainsLower opt.schema st.searchQuery)
  | none => []

/-- `maxLength` in `CommandPalette.handleKeyDown` and its reclamp effect:
the length of the currently visible list of the current stage. -/
def maxLength (ctx : Ctx) (st : PaletteState) : Nat :=
  match st.commandOptions with
  | some _ => (filteredOptions st).length
  | none => (flatCommands ctx st.searchQuery).length

/-- The reclamp effect of `CommandPalette` (the `useEffect` on
`[flatCommands.length, filteredOptions.length, selectedIndex, commandOptions]`):
when `selectedIndex >= maxLength`, it is set to `Math.max(0, maxLength - 1)`. -/
def reclamp (ctx : Ctx) (st : PaletteState) : PaletteState :=
  if st.selectedIndex ≥ (maxLength ctx st : Int) then
    { st with selectedIndex := max 0 ((maxLength ctx st : Int) - 1) }
  else st

/-- `executeCommand` in `CommandPalette`: runs the handler; a promise
resolving to a non-empty option array enters two-stage mode (options stored,
parent recorded, query and selection reset) without touching history or
closing; otherwise the command id is appended to history and the palette is
closed (`handleClose` = `setShowCommandPalette(false)`). -/
def executeCommand (command : Command) (ctx : Ctx) (st : PaletteState) : Ctx × PaletteState :=
  match command.handler ctx with
  | (ctx1, .promise (some opts)) =>
    if opts.length > 0 then
      (ctx1, { st with commandOptions := some opts, parentCommand := some command,
                       searchQuery := "", selectedIndex := 0 })
    else
      ({ ctx1 with commandHistory := ctx1.commandHistory ++ [command.id],
                   showCommandPalette := false }, st)
  | (ctx1, .promise none) =>
    ({ ctx1 with commandHistory := ctx1.commandHistory ++ [command.id],
                 showCommandPalette := false }, st)
  | (ctx1, .unit) =>
    ({ ctx1 with commandHistory := ctx1.commandHistory ++ [command.id],
                 showCommandPalette := false }, st)

/-- `executeOption` in `CommandPalette`: runs the option's handler, appends
the parent command's id (when a parent is recorded) to history, and closes
the palette. -/
def executeOption (option : CommandOption) (ctx : Ctx) (st : PaletteState) : Ctx :=
  let ctx1 := option.handler ctx
  let ctx2 :=
    match st.parentCommand with
    | some parent => { ctx1 with commandHistory := ctx1.commandHistory ++ [parent.id] }
    | none => ctx1
  { ctx2 with showCommandPalette := false }

/-- The `Enter` branch of `CommandPalette.handleKeyDown`: in options mode the
option at `selectedIndex` (if any) is executed; in commands mode the command
at `selectedIndex` (if any) is executed only when enabled. -/
def paletteEnter (ctx : Ctx) (st : PaletteState) : Ctx × PaletteState :=
  match st.commandOptions with
  | some _ =>
    match listGetInt (filteredOptions st) st.selectedIndex with
    | some option => (executeOption option ctx st, st)
    | none => (ctx, st)
  | none =>
    match listGetInt (flatCommands ctx st.searchQuery) st.selectedIndex with
    | some command =>
      if command.isEnabled ctx then executeCommand command ctx st else (ctx, st)
    | none => (ctx, st)

/-- A pointer click on a (non-recent) command row:
`onClick={() => !isDisabled && executeCommand(cmd)}`. -/
def paletteClick (command : Command) (ctx : Ctx) (st : PaletteState) : Ctx × PaletteState :=
  if command.isEnabled ctx then executeCommand command ctx st else (ctx, st)

/-- The keys `CommandPalette.handleKeyDown` handles. -/
inductive PaletteKey where
  | arrowDown
  | arrowUp
  | enter
  | escapeKey
  deriving DecidableEq, Repr

/-- `CommandPalette.handleKeyDown`: ArrowDown moves the cursor down clamped to
`maxLength - 1`, ArrowUp moves it up clamped to `0`, Enter executes as in
`paletteEnter`, Escape pops options mode back to browsing (resetting query and
selection) or closes the palette. -/
def paletteKeyDown (k : PaletteKey) (ctx : Ctx) (st : PaletteState) : Ctx × PaletteState :=
  match k with
  | .arrowDown =>
    (ctx, { st with selectedIndex := min (st.selectedIndex + 1) ((maxLength ctx st : Int) - 1) })
  | .arrowUp =>
    (ctx, { st with selectedIndex := max (st.selectedIndex - 1) 0 })
  | .enter => paletteEnter ctx st
  | .escapeKey =>
    match st.commandOptions with
    | some _ =>
      (ctx, { st with commandOptions := none, parentCommand := none,
                      searchQuery := "", selectedIndex := 0 })
    | none => ({ ctx with showCommandPalette := false }, st)

/-- The reset `CommandPalette` performs when the palette opens. -/
def paletteOpenState : PaletteState :=
  { searchQuery := "", selectedIndex := 0, commandOptions := none, parentCommand := none }

/-- Typing in the palette's search field: `setSearchQuery` leaves the cursor
untouched (the reclamp effect then runs separately). -/
def paletteSetQuery (q : String) (st : PaletteState) : PaletteState :=
  { st with searchQuery := q }

/-- A baseline context used as concrete input in witnesses: empty expression
and query, not loading, empty history, palette open. -/
def ctxBase : Ctx :=
  { sessionId := 1, expression := "", query := "", loading := false,
    textInputFocused := false, mode := "graph", theme := "light",
    commandHistory := [], showCommandPalette := true, tableHints := [], effects := [] }

/-- A concrete table hint used as witness input. -/
def hintUsers : TableHint := { pine := "public.users", table := "users", schema := "public" }

/-- A context whose AST build yields one table hint. -/
def ctxHints : Ctx := { ctxBase with tableHints := [hintUsers] }

/-- The option list `cmdSelectTable`'s handler resolves to on `ctxHints`. -/
def selectTableOptsW : List CommandOption :=
  [{ id := "public.users", label := "users", detail := none, schema := some "public"
     schemaColor := some (getSchemaColor "public" false)
     handler := fun ctx' => emit ctx' (.appendAndUpdateExpression "public.users") }]

/-- A freshly opened palette state. -/
def stBase : PaletteState :=
  { searchQuery := "", selectedIndex := 0, commandOptions := none, parentCommand := none }

/-- C4: executing a command from the palette whose handler resolves
asynchronously enters the awaiting-option stage when the resolved option
sequence is non-empty — the options are stored, the parent command is
recorded, query and selection are reset to 0, nothing is appended to history
(the context is exactly the handler's output), and the palette is not closed;
when it resolves to an empty sequence or to nothing, the command id is
appended to history and the palette is closed. -/
theorem two_stage_execute_contract :
    (∀ (cmd : Command) (ctx : Ctx) (st : PaletteState) (ctx1 : Ctx)
       (opts : List CommandOption),
      cmd.handler ctx = (ctx1, .promise (some opts)) → opts ≠ [] →
      executeCommand cmd ctx st =
        (ctx1, { st with commandOptions := some opts, parentCommand := some cmd,
                         searchQuery := "", selectedIndex := 0 })) ∧
    (∀ (cmd : Command) (ctx : Ctx) (st : PaletteState) (ctx1 : Ctx) (r : HandlerResult),
      cmd.handler ctx = (ctx1, r) →
      (r = .promise none ∨ r = .promise (some [])) →
      executeCommand cmd ctx st =
        ({ ctx1 with commandHistory := ctx1.commandHistory ++ [cmd.id],
                     showCommandPalette := false }, st)) := by
  constructor
  · intro cmd ctx st ctx1 opts h hne
    have hpos : 0 < opts.length := List.length_pos.mpr hne
    simp [executeCommand, h, hpos]
  · intro cmd ctx st ctx1 r h hr
    rcases hr with hr | hr <;> subst hr <;> simp [executeCommand, h]

/-- Witness for C4: the real two-stage command `select-table`, on a context
whose AST build yields one table hint, enters the awaiting-option stage; on a
context with no hints it resolves to an empty sequence and completes with a
history append and a close. -/
theorem two_stage_execute_contract_witness :
    executeCommand cmdSelectTable ctxHints stBase =
      (ctxHints, { stBase with commandOptions := some selectTableOptsW,
                               parentCommand := some cmdSelectTable,
                               searchQuery := "", selectedIndex := 0 }) ∧
    executeCommand cmdSelectTable ctxBase stBase =
      ({ ctxBase with commandHistory := ctxBase.commandHistory ++ [cmdSelectTable.id],
                      showCommandPalette := false }, stBase) :=
  ⟨two_stage_execute_contract.1 cmdSelectTable ctxHints stBase ctxHints selectTableOptsW rfl
      (by simp [selectTableOptsW]),
   two_stage_execute_contract.2 cmdSelectTable ctxBase stBase ctxBase (.promise (some []))
      rfl (Or.inr rfl)⟩

/-- C5: selecting an option in the awaiting-option stage applies the option's
handler exactly once (the resulting context is that single application, with
only the history append and close on top) and appends the parent two-stage
command's id — not the option's id — to history, then closes the palette. -/
theorem option_selection_records_parent :
    ∀ (option : CommandOption) (ctx : Ctx) (st : PaletteState) (parent : Command),
      st.parentCommand = some parent →
      executeOption option ctx st =
        { option.handler ctx with
            commandHistory := (option.handler ctx).commandHistory ++ [parent.id],
            showCommandPalette := false } := by
  intro option ctx st parent h
  simp [executeOption, h]

/-- Witness for C5: selecting the `users` option with `select-table` as parent
records `select-table` into history and closes the palette. -/
theorem option_selection_records_parent_witness :
    executeOption (selectTableOptsW.get ⟨0, by simp [selectTableOptsW]⟩) ctxBase
        { stBase with commandOptions := some selectTableOptsW,
                      parentCommand := some cmdSelectTable } =
      { (selectTableOptsW.get ⟨0, by simp [selectTableOptsW]⟩).handler ctxBase with
          commandHistory :=
            ((selectTableOptsW.get ⟨0, by simp [selectTableOptsW]⟩).handler ctxBase).commandHistory
              ++ [cmdSelectTable.id],
          showCommandPalette := false } :=
  option_selection_records_parent _ ctxBase _ cmdSelectTable rfl

/-- C7: when the visible list of the current stage has shrunk to length `M`
while `selectedIndex` still is `N - 1` with `M < N`, the reclamp effect sets
`selectedIndex` to `max 0 (M - 1)`. -/
theorem reclamp_after_shrink :
    ∀ (ctx : Ctx) (st : PaletteState) (N M : Nat),
      M < N → st.selectedIndex = (N : Int) - 1 → maxLength ctx st = M →
      (reclamp ctx st).selectedIndex = max 0 ((M : Int) - 1) := by
  intro ctx st N M hMN hidx hlen
  have hge : (M : Int) ≤ st.selectedIndex := by
    rw [hidx]
    omega
  simp [reclamp, hlen, hge]

/-- Witness for C7: with the browsing list shrunk from 9 items to 0 by the
query `zzz` while the cursor sat on the old last index 8, the reclamp resets
the cursor to 0. -/
theorem reclamp_after_shrink_witness :
    0 < 9 ∧
    (reclamp ctxBase { stBase with searchQuery := "zzz", selectedIndex := 8 }).selectedIndex =
      max 0 ((0 : Int) - 1) :=
  ⟨by decide,
   reclamp_after_shrink ctxBase { stBase with searchQuery := "zzz", selectedIndex := 8 } 9 0
     (by decide) (by decide) rfl⟩

/-- C9: pressing Enter when no item exists at `selectedIndex` — in either
stage — leaves the context (handlers, history, palette-open flag) and the
palette state entirely unchanged. -/
theorem enter_without_item_is_noop :
    (∀ (ctx : Ctx) (st : PaletteState),
      st.commandOptions = none →
      listGetInt (flatCommands ctx st.searchQuery) st.selectedIndex = none →
      paletteEnter ctx st = (ctx, st)) ∧
    (∀ (ctx : Ctx) (st : PaletteState) (opts : List CommandOption),
      st.commandOptions = some opts →
      listGetInt (filteredOptions st) st.selectedIndex = none →
      paletteEnter ctx st = (ctx, st)) := by
  constructor
  · intro ctx st h1 h2
    simp [paletteEnter, h1, h2]
  · intro ctx st opts h1 h2
    simp [paletteEnter, h1, h2]

/-- Witness for C9: Enter on an emptied browsing list (query `zzz`) and Enter
in the options stage with an empty option set both change nothing. -/
theorem enter_without_item_is_noop_witness :
    paletteEnter ctxBase { stBase with searchQuery := "zzz" } =
      (ctxBase, { stBase with searchQuery := "zzz" }) ∧
    paletteEnter ctxBase { stBase with commandOptions := some [], selectedIndex := 5 } =
      (ctxBase, { stBase with commandOptions := some [], selectedIndex := 5 }) :=
  ⟨enter_without_item_is_noop.1 ctxBase _ rfl rfl,
   enter_without_item_is_noop.2 ctxBase _ [] rfl rfl⟩

/-- The palette state `executeCommand` returns is either the input state or
one with `selectedIndex` reset to 0 (the two-stage transition). -/
lemma executeCommand_snd (cmd : Command) (ctx : Ctx) (st : PaletteState) :
    (executeCommand cmd ctx st).2 = st ∨ (executeCommand cmd ctx st).2.selectedIndex = 0 := by
  rcases h : cmd.handler ctx with ⟨ctx1, r⟩
  rcases r with _ | opts
  · left
    simp [executeCommand, h]
  · rcases opts with _ | opts
    · left
      simp [executeCommand, h]
    · by_cases hl : 0 < opts.length
      · right
        simp [executeCommand, h, hl]
      · left
        simp [executeCommand, h, hl]

/-- The palette state `paletteEnter` returns is either the input state or one
with `selectedIndex` reset to 0. -/
lemma paletteEnter_snd (ctx : Ctx) (st : PaletteState) :
    (paletteEnter ctx st).2 = st ∨ (paletteEnter ctx st).2.selectedIndex = 0 := by
  rcases hco : st.commandOptions with _ | opts
  · rcases hg : listGetInt (flatCommands ctx st.searchQuery) st.selectedIndex with _ | cmd
    · left
      simp [paletteEnter, hco, hg]
    · by_cases he : cmd.isEnabled ctx = true
      · have : paletteEnter ctx st = executeCommand cmd ctx st := by
          simp [paletteEnter, hco, hg, he]
        rw [this]
        exact executeCommand_snd cmd ctx st
      · left
        simp [paletteEnter, hco, hg, he]
  · rcases hg : listGetInt (filteredOptions st) st.selectedIndex with _ | opt
    · left
      simp [paletteEnter, hco, hg]
    · left
      simp [paletteEnter, hco, hg]

/-- C10: on an empty visible list with the cursor at 0, ArrowDown computes
`min (0 + 1) (0 - 1) = -1`; the reclamp effect does not restore it (its guard
`selectedIndex >= maxLength` is false at `-1 >= 0`); this is the only
palette key that can make the cursor negative from a non-negative state; and
Enter with a negative cursor changes nothing. -/
theorem arrowDown_empty_list_negative_cursor :
    (∀ (ctx : Ctx) (st : PaletteState),
      maxLength ctx st = 0 → st.selectedIndex = 0 →
      (paletteKeyDown .arrowDown ctx st).2.selectedIndex = -1 ∧
      reclamp ctx (paletteKeyDown .arrowDown ctx st).2 = (paletteKeyDown .arrowDown ctx st).2) ∧
    (∀ (ctx : Ctx) (st : PaletteState) (k : PaletteKey),
      0 ≤ st.selectedIndex →
      (paletteKeyDown k ctx st).2.selectedIndex < 0 →
      k = .arrowDown ∧ maxLength ctx st = 0) ∧
    (∀ (ctx : Ctx) (st : PaletteState),
      st.selectedIndex = -1 → paletteEnter ctx st = (ctx, st)) := by
  refine ⟨?_, ?_, ?_⟩
  · intro ctx st h0 hidx
    have hdown : (paletteKeyDown .arrowDown ctx st).2.selectedIndex = -1 := by
      simp [paletteKeyDown, h0, hidx]
    refine ⟨hdown, ?_⟩
    have hm : maxLength ctx (paletteKeyDown .arrowDown ctx st).2 = maxLength ctx st := rfl
    rw [reclamp, if_neg]
    rw [hdown, hm, h0]
    omega
  · intro ctx st k hge hlt
    cases k with
    | arrowDown =>
      refine ⟨rfl, ?_⟩
      simp only [paletteKeyDown] at hlt
      rcases min_lt_iff.mp hlt with h | h
      · omega
      · omega
    | arrowUp =>
      exfalso
      simp only [paletteKeyDown] at hlt
      have := le_max_right (st.selectedIndex - 1) (0 : Int)
      omega
    | enter =>
      exfalso
      simp only [paletteKeyDown] at hlt
      rcases paletteEnter_snd ctx st with h | h
      · rw [h] at hlt
        omega
      · rw [h] at hlt
        omega
    | escapeKey =>
      exfalso
      simp only [paletteKeyDown] at hlt
      rcases hco : st.commandOptions with _ | opts
      · rw [hco] at hlt
        simp at hlt
        omega
      · rw [hco] at hlt
        simp at hlt
  · intro ctx st h
    have hneg : ∀ {α : Type} (l : List α), listGetInt l st.selectedIndex = none := by
      intro α l
      rw [h]
      simp [listGetInt]
    rcases hco : st.commandOptions with _ | opts <;>
      simp [paletteEnter, hco, hneg]

/-- Witness for C10: on the browsing list emptied by the query `zzz`,
ArrowDown at cursor 0 yields `-1`, the reclamp leaves it, any key producing a
negative cursor from 0 is ArrowDown on the empty list, and Enter at `-1` is a
no-op. -/
theorem arrowDown_empty_list_negative_cursor_witness :
    ((paletteKeyDown .arrowDown ctxBase { stBase with searchQuery := "zzz" }).2.selectedIndex
        = -1 ∧
      reclamp ctxBase (paletteKeyDown .arrowDown ctxBase { stBase with searchQuery := "zzz" }).2
        = (paletteKeyDown .arrowDown ctxBase { stBase with searchQuery := "zzz" }).2) ∧
    (PaletteKey.arrowDown = PaletteKey.arrowDown ∧
      maxLength ctxBase { stBase with searchQuery := "zzz" } = 0) ∧
    paletteEnter ctxBase { stBase with searchQuery := "zzz", selectedIndex := -1 } =
      (ctxBase, { stBase with searchQuery := "zzz", selectedIndex := -1 }) :=
  ⟨arrowDown_empty_list_negative_cursor.1 ctxBase { stBase with searchQuery := "zzz" } rfl rfl,
   arrowDown_empty_list_negative_cursor.2.1 ctxBase { stBase with searchQuery := "zzz" }
     .arrowDown (by decide) (by decide),
   arrowDown_empty_list_negative_cursor.2.2 ctxBase
     { stBase with searchQuery := "zzz", selectedIndex := -1 } rfl⟩

/-- A plain Escape key-down event. -/
def escEvent : KeyEvent :=
  { key := "Escape", ctrlKey := false, metaKey := false, shiftKey := false,
    altKey := false, targetIsTextInput := false }

/-- C2 counterexample: dispatching a key-down event matching the escape
keybinding DOES set the event's default-prevented flag (the escape entry
carries `commandId: 'focus-input'`, and the dispatcher's command branch calls
`preventDefault` unconditionally), contradicting the claim that the flag is
unchanged by the dispatch. -/
theorem escape_dispatch_prevents_default_counterexample :
    matchesEscape escEvent = true ∧
    ¬((handleKeyDown false ctxBase escEvent).2 = false) := by
  decide

/-- C2 amended: for every key-down event matching the escape keybinding, the
dispatcher calls `preventDefault` (the flag ends up set) and invokes the
focus-primary-input behavior by executing the `focus-input` command —
`session.focusTextInput()` is called and `focus-input` is recorded into
history. -/
theorem escape_dispatch_behavior :
    ∀ (isMac : Bool) (ctx : Ctx) (e : KeyEvent), e.key = "Escape" →
      handleKeyDown isMac ctx e =
        ({ ctx with commandHistory := ctx.commandHistory ++ ["focus-input"],
                    effects := ctx.effects ++ [Effect.focusTextInput] }, true) := by
  intro isMac ctx e h
  have ht : (strToLower "Escape" == "t") = false := by decide
  have hp : (strToLower "Escape" == "p") = false := by decide
  have ha : (("Escape" : String) == "a") = false := by decide
  have hr : (("Escape" : String) == "r") = false := by decide
  have h1 : matchesToggleTheme e = false := by
    simp [matchesToggleTheme, h, ht]
  have h2 : matchesCommandPalette e = false := by
    simp [matchesCommandPalette, h, hp]
  have h3 : matchesEscape e = true := by
    simp [matchesEscape, h]
  have h4 : matchesSelectAll e = false := by
    simp [matchesSelectAll, h, ha]
  have h5 : matchesReload e = false := by
    simp [matchesReload, h, hr]
  have hlook : getCommandById "focus-input" = some cmdFocusInput := rfl
  have hexec : ∀ ctx' : Ctx,
      globalExecuteCommand "focus-input" ctx' =
        { ctx' with commandHistory := ctx'.commandHistory ++ ["focus-input"],
                    effects := ctx'.effects ++ [Effect.focusTextInput] } :=
    fun _ => rfl
  simp [handleKeyDown, KEYBINDINGS, List.foldl, dispatchStep,
        kbToggleTheme, kbCommandPalette, kbEscape, kbSelectAll, kbReload,
        h1, h2, h3, h4, h5, hlook, hexec, cmdFocusInput, ALWAYS_ENABLED]

/-- Witness for C2's amended claim at a concrete Escape event and context. -/
theorem escape_dispatch_behavior_witness :
    handleKeyDown true ctxHints escEvent =
      ({ ctxHints with commandHistory := ctxHints.commandHistory ++ ["focus-input"],
                       effects := ctxHints.effects ++ [Effect.focusTextInput] }, true) :=
  escape_dispatch_behavior true ctxHints escEvent rfl

/-- A context with an empty Pine expression but a non-empty SQL query. -/
def ctxQueryOnly : Ctx := { ctxBase with query := "select 1" }

/-- C6 counterexample: `run-query` is enabled on a non-loading session whose
expression is empty but whose SQL `query` is non-empty — so "enabled iff the
session has a non-empty expression and is not loading" is false:
the source predicate is `!!(session.expression || session.query) && !session.loading`. -/
theorem run_query_enabled_counterexample :
    ¬(cmdRunQuery.isEnabled ctxQueryOnly = true ↔
      (ctxQueryOnly.expression ≠ "" ∧ ctxQueryOnly.loading = false)) := by
  decide

/-- C6 amended: `run-query` is enabled iff the session has a non-empty
expression OR a non-empty query, and is not loading; invoking it via Enter
in the palette with both expression and query empty changes no state; with a
non-empty expression and not loading, Enter calls the session's execute path
exactly once (exactly one `evaluate` effect is appended) and appends
`run-query` to history, closing the palette. -/
theorem run_query_enablement_and_execution :
    (∀ ctx : Ctx, cmdRunQuery.isEnabled ctx = true ↔
      ((ctx.expression ≠ "" ∨ ctx.query ≠ "") ∧ ctx.loading = false)) ∧
    (∀ (ctx : Ctx) (st : PaletteState),
      st.commandOptions = none →
      listGetInt (flatCommands ctx st.searchQuery) st.selectedIndex = some cmdRunQuery →
      ctx.expression = "" → ctx.query = "" →
      paletteEnter ctx st = (ctx, st)) ∧
    (∀ (ctx : Ctx) (st : PaletteState),
      st.commandOptions = none →
      listGetInt (flatCommands ctx st.searchQuery) st.selectedIndex = some cmdRunQuery →
      ctx.expression ≠ "" → ctx.loading = false →
      paletteEnter ctx st =
        ({ ctx with commandHistory := ctx.commandHistory ++ ["run-query"],
                    showCommandPalette := false,
                    effects := ctx.effects ++ [Effect.evaluate] }, st)) := by
  refine ⟨?_, ?_, ?_⟩
  · intro ctx
    simp [cmdRunQuery]
  · intro ctx st hco hget hexp hq
    have hdis : cmdRunQuery.isEnabled ctx = false := by
      simp [cmdRunQuery, hexp, hq]
    simp [paletteEnter, hco, hget, hdis]
  · intro ctx st hco hget hexp hload
    have hen : cmdRunQuery.isEnabled ctx = true := by
      simp [cmdRunQuery, hexp, hload]
    have hrun : executeCommand cmdRunQuery ctx st =
        ({ ctx with commandHistory := ctx.commandHistory ++ ["run-query"],
                    showCommandPalette := false,
                    effects := ctx.effects ++ [Effect.evaluate] }, st) := by
      simp [executeCommand, cmdRunQuery, emit]
    simp [paletteEnter, hco, hget, hen, hrun]

/-- Witness for C6's amended claim: on the empty session Enter over
`run-query` (index 2 of the browsing list) is a no-op; on a session whose
expression is `company`, it evaluates once and records `run-query`. -/
theorem run_query_enablement_and_execution_witness :
    (cmdRunQuery.isEnabled { ctxBase with expression := "company" } = true ↔
      (({ ctxBase with expression := "company" } : Ctx).expression ≠ "" ∨
        ({ ctxBase with expression := "company" } : Ctx).query ≠ "") ∧
        ({ ctxBase with expression := "company" } : Ctx).loading = false) ∧
    paletteEnter ctxBase { stBase with selectedIndex := 2 } =
      (ctxBase, { stBase with selectedIndex := 2 }) ∧
    paletteEnter { ctxBase with expression := "company" } { stBase with selectedIndex := 2 } =
      ({ { ctxBase with expression := "company" } with
          commandHistory := ({ ctxBase with expression := "company" } : Ctx).commandHistory
            ++ ["run-query"],
          showCommandPalette := false,
          effects := ({ ctxBase with expression := "company" } : Ctx).effects
            ++ [Effect.evaluate] }, { stBase with selectedIndex := 2 }) :=
  ⟨run_query_enablement_and_execution.1 { ctxBase with expression := "company" },
   run_query_enablement_and_execution.2.1 ctxBase { stBase with selectedIndex := 2 }
     rfl rfl rfl rfl,
   run_query_enablement_and_execution.2.2 { ctxBase with expression := "company" }
     { stBase with selectedIndex := 2 } rfl rfl (by decide) rfl⟩

/-- A config cannot execute a command on `ctx` for event `e`: it does not
match, or it is not command-bound, or its command id is unknown, or its
command is disabled. -/
def configBlocked (ctx : Ctx) (e : KeyEvent) (config : KeybindingConfig) : Bool :=
  !(config.«matches» e) ||
    (match config.commandId with
     | some cid =>
       match getCommandById cid with
       | some cmd => !(cmd.isEnabled ctx)
       | none => true
     | none => true)

/-- A blocked config's dispatch step leaves the context untouched (it may
still set the default-prevented flag). -/
lemma dispatchStep_fst_of_blocked (ctx : Ctx) (p : Bool) (e : KeyEvent)
    (config : KeybindingConfig) (h : configBlocked ctx e config = true) :
    (dispatchStep ctx p e config).1 = ctx := by
  obtain ⟨name, description, display, m, cid⟩ := config
  unfold configBlocked at h
  unfold dispatchStep
  by_cases hm : m e = true
  · simp only [hm, Bool.not_true, Bool.false_or, if_true] at h ⊢
    rcases cid with _ | cid
    · simp only
      split
      · split
        · rfl
        · split <;> rfl
      · rfl
    · simp only at h ⊢
      rcases hl : getCommandById cid with _ | cmd
      · simp [hl]
      · simp only [hl, Bool.not_eq_true'] at h
        simp [hl, h]
  · simp only [Bool.not_eq_true] at hm
    simp [hm]

/-- Folding the dispatcher over blocked configs never changes the context. -/
lemma foldl_dispatch_fst (e : KeyEvent) :
    ∀ (l : List KeybindingConfig) (ctx : Ctx) (p : Bool),
      (∀ config ∈ l, configBlocked ctx e config = true) →
      (l.foldl (fun acc config => dispatchStep acc.1 acc.2 e config) (ctx, p)).1 = ctx := by
  intro l
  induction l with
  | nil =>
    intro ctx p _
    simp
  | cons c cs ih =>
    intro ctx p h
    have h1 : (dispatchStep ctx p e c).1 = ctx :=
      dispatchStep_fst_of_blocked ctx p e c (h c (List.mem_cons_self c cs))
    have hpair : dispatchStep ctx p e c = (ctx, (dispatchStep ctx p e c).2) :=
      Prod.ext h1 rfl
    show (List.foldl (fun acc config => dispatchStep acc.1 acc.2 e config)
        (dispatchStep ctx p e c) cs).1 = ctx
    rw [hpair]
    exact ih ctx _ (fun config hm => h config (List.mem_cons_of_mem _ hm))

/-- C3: a command whose `isEnabled` is false in the current context cannot be
invoked — keybinding dispatch leaves the whole context (handlers' effects,
history, palette flag) unchanged whenever every config matching the event is
blocked; palette Enter over a disabled command changes neither the context
nor the palette state; and a pointer click on a disabled command row likewise
changes nothing. -/
theorem disabled_command_is_noop :
    (∀ (isMac : Bool) (ctx : Ctx) (e : KeyEvent),
      (∀ config ∈ KEYBINDINGS isMac, configBlocked ctx e config = true) →
      (handleKeyDown isMac ctx e).1 = ctx) ∧
    (∀ (ctx : Ctx) (st : PaletteState) (cmd : Command),
      st.commandOptions = none →
      listGetInt (flatCommands ctx st.searchQuery) st.selectedIndex = some cmd →
      cmd.isEnabled ctx = false →
      paletteEnter ctx st = (ctx, st)) ∧
    (∀ (ctx : Ctx) (st : PaletteState) (cmd : Command),
      cmd.isEnabled ctx = false →
      paletteClick cmd ctx st = (ctx, st)) := by
  refine ⟨?_, ?_, ?_⟩
  · intro isMac ctx e h
    exact foldl_dispatch_fst e (KEYBINDINGS isMac) ctx false h
  · intro ctx st cmd hco hget hdis
    simp [paletteEnter, hco, hget, hdis]
  · intro ctx st cmd hdis
    simp [paletteClick, hdis]

/-- Witness for C3: a Ctrl+A event (blocked: its config is not command-bound)
leaves the context unchanged; Enter over the disabled `run-query` row and a
click on the disabled `run-query` are no-ops on the empty session. -/
theorem disabled_command_is_noop_witness :
    (handleKeyDown false ctxBase
        { key := "a", ctrlKey := true, metaKey := false, shiftKey := false,
          altKey := false, targetIsTextInput := false }).1 = ctxBase ∧
    paletteEnter ctxBase { stBase with selectedIndex := 2 } =
      (ctxBase, { stBase with selectedIndex := 2 }) ∧
    paletteClick cmdRunQuery ctxBase stBase = (ctxBase, stBase) :=
  ⟨disabled_command_is_noop.1 false ctxBase _ (by decide),
   disabled_command_is_noop.2.1 ctxBase { stBase with selectedIndex := 2 } cmdRunQuery
     rfl rfl rfl,
   disabled_command_is_noop.2.2 ctxBase stBase cmdRunQuery rfl⟩

/-- Every command category appears in the palette's fixed category order. -/
lemma mem_categoryOrder (c : CommandCategory) : c ∈ categoryOrder := by
  cases c <;> simp [categoryOrder]

/-- Membership in the visible command list is membership in the registry
minus hidden commands. -/
lemma mem_allVisible {c : Command} :
    c ∈ allVisibleCommands ↔ c ∈ COMMANDS ∧ c.hidden = false := by
  unfold allVisibleCommands getAllCommands
  rw [List.mem_filter]
  simp [Bool.not_eq_true']

/-- Flattening the grouped commands preserves membership in the filtered
list (grouping only reorders by category). -/
lemma mem_groupedFlat {q : String} {c : Command} :
    c ∈ (groupedCommands q).flatMap (fun group => group.2) ↔ c ∈ filteredCommands q := by
  rw [List.mem_flatMap]
  constructor
  · rintro ⟨g, hg, hcg⟩
    rw [groupedCommands, List.mem_filterMap] at hg
    obtain ⟨cat, _, hcat⟩ := hg
    by_cases hlen :
        ((filteredCommands q).filter (fun cmd => decide (cmd.category = cat))).length > 0
    · rw [if_pos hlen] at hcat
      cases hcat
      exact (List.mem_filter.mp hcg).1
    · rw [if_neg hlen] at hcat
      cases hcat
  · intro hc
    refine ⟨(c.category,
      (filteredCommands q).filter (fun cmd => decide (cmd.category = c.category))), ?_, ?_⟩
    · rw [groupedCommands, List.mem_filterMap]
      refine ⟨c.category, mem_categoryOrder c.category, ?_⟩
      rw [if_pos]
      exact List.length_pos.mpr
        (List.ne_nil_of_mem (List.mem_filter.mpr ⟨hc, by simp⟩))
    · exact List.mem_filter.mpr ⟨hc, by simp⟩

/-- Every recent-section entry is a visible registry command. -/
lemma recent_subset {ctx : Ctx} {q : String} {c : Command}
    (h : c ∈ recentCommands ctx q) : c ∈ allVisibleCommands := by
  unfold recentCommands at h
  by_cases hq : (q == "") = true
  · rw [if_pos hq] at h
    obtain ⟨hmem, _⟩ := List.mem_filter.mp h
    obtain ⟨id, _, hfind⟩ := List.mem_filterMap.mp hmem
    exact List.mem_of_find?_eq_some hfind
  · rw [if_neg hq] at h
    cases h

/-- Membership in the flattened navigable list splits into the recent section
and the grouped section. -/
lemma mem_flatCommands {ctx : Ctx} {q : String} {c : Command} :
    c ∈ flatCommands ctx q ↔
      c ∈ recentCommands ctx q ∨
        c ∈ (groupedCommands q).flatMap (fun group => group.2) := by
  unfold flatCommands
  by_cases hl : (recentCommands ctx q).length > 0
  · rw [if_pos hl]
    exact List.mem_append
  · rw [if_neg hl]
    have hnil : recentCommands ctx q = [] := by
      rcases hrec : recentCommands ctx q with _ | ⟨a, as⟩
      · rfl
      · rw [hrec] at hl
        simp at hl
    rw [hnil]
    simp

/-- C8: with the empty query, the set of commands visible in the browsing
stage is exactly the set of non-hidden registry commands (recent entries only
duplicate visible commands); with any non-empty query, the visible commands
are exactly the non-hidden commands whose label contains the query
case-insensitively. -/
theorem palette_filter_visible_set :
    ∀ (ctx : Ctx) (q : String) (c : Command),
      (q = "" → (c ∈ flatCommands ctx q ↔ c ∈ COMMANDS ∧ c.hidden = false)) ∧
      (q ≠ "" → (c ∈ flatCommands ctx q ↔
        c ∈ COMMANDS ∧ c.hidden = false ∧ containsLower c.label q = true)) := by
  intro ctx q c
  constructor
  · rintro rfl
    rw [mem_flatCommands, mem_groupedFlat]
    have hf : filteredCommands "" = allVisibleCommands := rfl
    rw [hf, ← mem_allVisible]
    constructor
    · rintro (h | h)
      · exact recent_subset h
      · exact h
    · intro h
      right
      exact h
  · intro hq
    have hqb : (q == "") = false := beq_eq_false_iff_ne.mpr hq
    have hrec : recentCommands ctx q = [] := by
      unfold recentCommands
      simp [hqb]
    have hfil : filteredCommands q =
        allVisibleCommands.filter (fun cmd => containsLower cmd.label q) := by
      unfold filteredCommands
      simp [hqb]
    rw [mem_flatCommands, mem_groupedFlat, hrec, hfil]
    simp [List.mem_filter, mem_allVisible, and_assoc]

/-- Witness for C8: `toggle-theme` is visible with the empty query, and with
the query `theme` (its label contains it case-insensitively). -/
theorem palette_filter_visible_set_witness :
    (cmdToggleTheme ∈ flatCommands ctxBase "" ↔
      cmdToggleTheme ∈ COMMANDS ∧ cmdToggleTheme.hidden = false) ∧
    (cmdToggleTheme ∈ flatCommands ctxBase "theme" ↔
      cmdToggleTheme ∈ COMMANDS ∧ cmdToggleTheme.hidden = false ∧
        containsLower cmdToggleTheme.label "theme" = true) :=
  ⟨(palette_filter_visible_set ctxBase "" cmdToggleTheme).1 rfl,
   (palette_filter_visible_set ctxBase "theme" cmdToggleTheme).2 (by decide)⟩

/-- A non-matching config's dispatch step is the identity on the accumulator. -/
lemma dispatchStep_skip (ctx : Ctx) (p : Bool) (e : KeyEvent) (config : KeybindingConfig)
    (h : config.«matches» e = false) : dispatchStep ctx p e config = (ctx, p) := by
  simp [dispatchStep, h]

/-- A matching `toggle-theme` chord pins the key down to lowercase `t`. -/
lemma matchesToggleTheme_key {e : KeyEvent} (h : matchesToggleTheme e = true) :
    strToLower e.key = "t" := by
  simp [matchesToggleTheme] at h
  exact h.2

/-- A matching `command-palette` chord pins the key down to lowercase `p`. -/
lemma matchesCommandPalette_key {e : KeyEvent} (h : matchesCommandPalette e = true) :
    strToLower e.key = "p" := by
  simp [matchesCommandPalette] at h
  exact h.2

/-- A matching `escape` chord pins the key to `Escape`. -/
lemma matchesEscape_key {e : KeyEvent} (h : matchesEscape e = true) :
    e.key = "Escape" := by
  simpa [matchesEscape] using h

/-- A matching `select-all` chord pins the key to `a`. -/
lemma matchesSelectAll_key {e : KeyEvent} (h : matchesSelectAll e = true) :
    e.key = "a" := by
  simp [matchesSelectAll] at h
  exact h.2

/-- The five registered chord predicates are pairwise exclusive: the key
conditions (lowercase `t`, lowercase `p`, `Escape`, `a`, `r`) cannot hold
simultaneously, so at most one keybinding matches any key-down event. -/
lemma matches_disjoint (e : KeyEvent) :
    (matchesToggleTheme e = true →
      matchesCommandPalette e = false ∧ matchesEscape e = false ∧
      matchesSelectAll e = false ∧ matchesReload e = false) ∧
    (matchesCommandPalette e = true →
      matchesEscape e = false ∧ matchesSelectAll e = false ∧ matchesReload e = false) ∧
    (matchesEscape e = true →
      matchesSelectAll e = false ∧ matchesReload e = false) ∧
    (matchesSelectAll e = true → matchesReload e = false) := by
  refine ⟨?_, ?_, ?_, ?_⟩
  · intro h
    have hk := matchesToggleTheme_key h
    have hp : (strToLower e.key == "p") = false := by
      rw [hk]
      decide
    have hesc : (e.key == "Escape") = false := by
      apply beq_eq_false_iff_ne.mpr
      intro hkey
      rw [hkey] at hk
      exact absurd hk (by decide)
    have ha : (e.key == "a") = false := by
      apply beq_eq_false_iff_ne.mpr
      intro hkey
      rw [hkey] at hk
      exact absurd hk (by decide)
    have hr : (e.key == "r") = false := by
      apply beq_eq_false_iff_ne.mpr
      intro hkey
      rw [hkey] at hk
      exact absurd hk (by decide)
    exact ⟨by simp [matchesCommandPalette, hp],
           by simp [matchesEscape, hesc],
           by simp [matchesSelectAll, ha],
           by simp [matchesReload, hr]⟩
  · intro h
    have hk := matchesCommandPalette_key h
    have hesc : (e.key == "Escape") = false := by
      apply beq_eq_false_iff_ne.mpr
      intro hkey
      rw [hkey] at hk
      exact absurd hk (by decide)
    have ha : (e.key == "a") = false := by
      apply beq_eq_false_iff_ne.mpr
      intro hkey
      rw [hkey] at hk
      exact absurd hk (by decide)
    have hr : (e.key == "r") = false := by
      apply beq_eq_false_iff_ne.mpr
      intro hkey
      rw [hkey] at hk
      exact absurd hk (by decide)
    exact ⟨by simp [matchesEscape, hesc],
           by simp [matchesSelectAll, ha],
           by simp [matchesReload, hr]⟩
  · intro h
    have hk := matchesEscape_key h
    have ha : (e.key == "a") = false := by
      rw [hk]
      decide
    have hr : (e.key == "r") = false := by
      rw [hk]
      decide
    exact ⟨by simp [matchesSelectAll, ha], by simp [matchesReload, hr]⟩
  · intro h
    have hk := matchesSelectAll_key h
    have hr : (e.key == "r") = false := by
      rw [hk]
      decide
    simp [matchesReload, hr]

/-- C1: for every key-down event, the dispatcher's behavior equals that of
resolving only the FIRST matching keybinding config in registry order (the
spec's `resolve`) and acting on it alone — although `handleKeyDown` iterates
over all of `KEYBINDINGS` with `forEach`, the registered chord predicates are
pairwise exclusive, so no later config can also match and act. -/
theorem dispatch_first_match_only :
    ∀ (isMac : Bool) (ctx : Ctx) (e : KeyEvent),
      handleKeyDown isMac ctx e =
        match (KEYBINDINGS isMac).find? (fun config => config.«matches» e) with
        | some config => dispatchStep ctx false e config
        | none => (ctx, false) := by
  intro isMac ctx e
  obtain ⟨d1, d2, d3, d4⟩ := matches_disjoint e
  cases h1 : matchesToggleTheme e with
  | true =>
    obtain ⟨e2, e3, e4, e5⟩ := d1 h1
    simp [handleKeyDown, KEYBINDINGS, kbToggleTheme, kbCommandPalette, kbEscape,
          kbSelectAll, kbReload, List.foldl, List.find?_cons, h1, e2, e3, e4, e5,
          dispatchStep_skip]
  | false =>
    cases h2 : matchesCommandPalette e with
    | true =>
      obtain ⟨e3, e4, e5⟩ := d2 h2
      simp [handleKeyDown, KEYBINDINGS, kbToggleTheme, kbCommandPalette, kbEscape,
            kbSelectAll, kbReload, List.foldl, List.find?_cons, h1, h2, e3, e4, e5,
            dispatchStep_skip]
    | false =>
      cases h3 : matchesEscape e with
      | true =>
        obtain ⟨e4, e5⟩ := d3 h3
        simp [handleKeyDown, KEYBINDINGS, kbToggleTheme, kbCommandPalette, kbEscape,
              kbSelectAll, kbReload, List.foldl, List.find?_cons, h1, h2, h3, e4, e5,
              dispatchStep_skip]
      | false =>
        cases h4 : matchesSelectAll e with
        | true =>
          have e5 := d4 h4
          simp [handleKeyDown, KEYBINDINGS, kbToggleTheme, kbCommandPalette, kbEscape,
                kbSelectAll, kbReload, List.foldl, List.find?_cons, h1, h2, h3, h4, e5,
                dispatchStep_skip]
        | false =>
          cases h5 : matchesReload e with
          | true =>
            simp [handleKeyDown, KEYBINDINGS, kbToggleTheme, kbCommandPalette, kbEscape,
                  kbSelectAll, kbReload, List.foldl, List.find?_cons, h1, h2, h3, h4, h5,
                  dispatchStep_skip]
          | false =>
            simp [handleKeyDown, KEYBINDINGS, kbToggleTheme, kbCommandPalette, kbEscape,
                  kbSelectAll, kbReload, List.foldl, List.find?_cons, List.find?_nil,
                  h1, h2, h3, h4, h5, dispatchStep_skip]
